import Mathlib

/-!
Verification development for the SocialSeed phase/risk/approval pipeline.

The definitions below are a shallow embedding of the Python source:
* `phase_manager.py` — `PhaseManager`, `TrafficLightSystem`, `HumanApprovalWorkflow`;
* `backend/ai_service.py` — `AIServiceProvider.assess_risk` and its fail-safe defaults;
* `backend/behavioral_service.py` — `PlatformHealthMonitor._get_backoff_time`.

Python floats are modelled as exact rationals (all constants in the source are
decimal literals), timestamps as rational seconds, database rows as records with
`Option` fields standing for `dict.get` with a default, and the async database
as explicit state passing.
-/

namespace SocialSeed

/-- `Phase` enum from phase_manager.py. -/
inductive Phase where
  | PHASE_1
  | PHASE_2
  | PHASE_3
deriving DecidableEq

/-- `RiskLevel` enum from phase_manager.py. -/
inductive RiskLevel where
  | GREEN
  | YELLOW
  | RED
deriving DecidableEq, BEq

/-- Account row as consumed via `account_data.get(...)` in
`PhaseManager._calculate_risk_score`: absent keys are `none`.
`last_action_at` is a timestamp in seconds. -/
structure AccountData where
  followers_count : Option ℕ := none
  following_count : Option ℕ := none
  engagement_rate : Option ℚ := none
  consecutive_errors : Option ℕ := none
  last_action_at : Option ℚ := none
deriving DecidableEq

/-- `AccountHealth` dataclass from phase_manager.py. -/
structure AccountHealth where
  account_id : String
  platform : String
  followers_count : ℕ
  following_count : ℕ
  posts_count : ℕ
  engagement_rate : ℚ
  followRatioVal : ℚ
  last_action_timestamp : Option ℚ
  consecutive_errors : ℕ
  risk_score : ℚ
  phase : Phase
  status : String

/-- `PhaseManager._calculate_risk_score` (phase_manager.py lines 229-272).
`now` is the wall clock used for `datetime.datetime.now()`;
`hours_since_action` is `(now - last_action).total_seconds() / 3600`. -/
def calculate_risk_score (now : ℚ) (account_data : AccountData) : ℚ :=
  let followers := account_data.followers_count.getD 0
  let following := account_data.following_count.getD 0
  let ratio : ℚ := (following : ℚ) / ((max followers 1 : ℕ) : ℚ)
  let ratio_factor : ℚ := if ratio > 5 then mkRat 4 10 else if ratio > 2 then mkRat 2 10 else 0
  let engagement_rate := account_data.engagement_rate.getD 0
  let engagement_factor : ℚ :=
    if engagement_rate < mkRat 1 100 then mkRat 3 10 else if engagement_rate < mkRat 2 100 then mkRat 1 10 else 0
  let consecutive_errors := account_data.consecutive_errors.getD 0
  let error_factor : ℚ := if consecutive_errors > 5 then mkRat 3 10
    else if consecutive_errors > 2 then mkRat 1 10 else 0
  let action_factor : ℚ :=
    match account_data.last_action_at with
    | some t => if (now - t) / 3600 < mkRat 1 2 then mkRat 2 10 else 0
    | none => 0
  min (ratio_factor + engagement_factor + error_factor + action_factor) 1

/-- `PhaseManager.initialize_account_phase` (phase_manager.py lines 112-132),
as a function of `days_active = (now - created_at).days`; `none` models a row
with no `created_at`. -/
def initialize_account_phase (days_active : Option ℤ) : Phase :=
  match days_active with
  | none => Phase.PHASE_1
  | some days =>
    if days < 30 then Phase.PHASE_1
    else if days < 60 then Phase.PHASE_2
    else Phase.PHASE_3

/-- `PhaseManager.should_progress_phase` (phase_manager.py lines 140-167),
as a function of the current phase, `days_active` (none when the account row
has no `created_at`), and the health metrics the guards read. -/
def should_progress_phase (current_phase : Phase) (days_active : Option ℤ)
    (health : AccountHealth) : Bool × Phase :=
  match days_active with
  | none => (false, current_phase)
  | some days =>
    if current_phase = Phase.PHASE_1 ∧ days ≥ 30 then
      if health.risk_score < mkRat 3 10 ∧ health.consecutive_errors < 3 ∧
          health.engagement_rate > mkRat 1 100 then
        (true, Phase.PHASE_2)
      else (false, current_phase)
    else if current_phase = Phase.PHASE_2 ∧ days ≥ 60 then
      if health.risk_score < mkRat 4 10 ∧ health.consecutive_errors < 5 ∧
          health.engagement_rate > mkRat 2 100 then
        (true, Phase.PHASE_3)
      else (false, current_phase)
    else (false, current_phase)

/-- One entry written by `self.db.log_phase_progression` in
`PhaseManager.progress_account_phase`. -/
structure PhaseLogEntry where
  account_id : String
  from_phase : Phase
  to_phase : Phase
  timestamp : ℚ
  reason : String
deriving DecidableEq

/-- The slice of database state that `PhaseManager.progress_account_phase`
reads and writes: the account's stored phase, its (derived) age and health,
and the phase-progression log. -/
structure PMState where
  current_phase : Phase
  days_active : Option ℤ
  health : AccountHealth
  phase_log : List PhaseLogEntry

/-- `PhaseManager.progress_account_phase` (phase_manager.py lines 169-187).
When the progression guard holds, the code first calls
`update_account_phase(account_id, next_phase)` and only then reads
`get_current_phase(account_id)` for the log entry's `from_phase`, so the
logged `from_phase` is taken from the already-updated row. -/
def progress_account_phase (now : ℚ) (account_id : String) (s : PMState) :
    Bool × PMState :=
  let sp := should_progress_phase s.current_phase s.days_active s.health
  if sp.1 then
    let s1 := { s with current_phase := sp.2 }
    let entry : PhaseLogEntry :=
      { account_id := account_id
        from_phase := s1.current_phase
        to_phase := sp.2
        timestamp := now
        reason := "Automatic progression based on health metrics" }
    (true, { s1 with phase_log := s1.phase_log ++ [entry] })
  else (false, s)

/-- The JSON dictionary shape flowing between `AIServiceProvider` and
`TrafficLightSystem`: every key ever read with `.get` is a field, `none`
meaning the key is absent from the dict. -/
structure LLMResponseDict where
  risk_level : Option String := none
  confidence : Option ℚ := none
  reasoning : Option String := none
  recommendation : Option String := none
  recommended_action : Option String := none
  safety_measures : Option (List String) := none
  flags : Option (List String) := none
deriving DecidableEq

/-- Outcome of the provider call + `json.loads` inside
`AIServiceProvider.assess_risk` / `_parse_risk_response`. -/
inductive LLMCallResult where
  | failure
  | unparseable
  | parsed (data : LLMResponseDict)

/-- `AIServiceProvider._get_default_risk_result` (ai_service.py lines 237-245).
The returned dict has no `flags` and no `recommendation` key. -/
def get_default_risk_result : LLMResponseDict :=
  { risk_level := some "yellow"
    confidence := some 0
    reasoning := some "AI risk assessment unavailable - manual review required"
    recommended_action := some "manual_review_required"
    safety_measures := some ["reduce_automation", "increase_monitoring"] }

/-- `AIServiceProvider.assess_risk` composed with `_parse_risk_response`
(ai_service.py lines 86-95 and 200-212): a provider exception or unparseable
JSON yields the default result; parsed JSON is normalised with per-key
defaults (again producing no `flags`/`recommendation` key). -/
def assess_risk (r : LLMCallResult) : LLMResponseDict :=
  match r with
  | LLMCallResult.failure => get_default_risk_result
  | LLMCallResult.unparseable => get_default_risk_result
  | LLMCallResult.parsed data =>
    { risk_level := some (data.risk_level.getD "yellow")
      confidence := some (data.confidence.getD (mkRat 5 10))
      reasoning := some (data.reasoning.getD "Risk assessment unavailable")
      recommended_action := some (data.recommended_action.getD "review_required")
      safety_measures := some (data.safety_measures.getD []) }

/-- Python's `str.lower()` on the ASCII verdict strings, written over the
character list so that it evaluates by kernel reduction. -/
def py_lower (s : String) : String :=
  String.mk (s.data.map Char.toLower)

/-- `TrafficLightSystem._parse_risk_level` (phase_manager.py lines 363-387). -/
def parse_risk_level (llm_response : LLMResponseDict) (health : AccountHealth)
    (phase : Phase) : RiskLevel :=
  let llm_risk := py_lower (llm_response.risk_level.getD "yellow")
  match phase with
  | Phase.PHASE_1 =>
    if llm_risk = "yellow" ∨ llm_risk = "red" then RiskLevel.RED
    else RiskLevel.GREEN
  | Phase.PHASE_2 =>
    if llm_risk = "red" ∨ health.risk_score > mkRat 6 10 then RiskLevel.RED
    else if llm_risk = "yellow" ∨ health.risk_score > mkRat 3 10 then RiskLevel.YELLOW
    else RiskLevel.GREEN
  | Phase.PHASE_3 =>
    if llm_risk = "red" ∨ health.risk_score > mkRat 8 10 then RiskLevel.RED
    else if llm_risk = "yellow" ∨ health.risk_score > mkRat 5 10 then RiskLevel.YELLOW
    else RiskLevel.GREEN

/-- `RiskAssessment` dataclass from phase_manager.py. -/
structure RiskAssessment where
  risk_level : RiskLevel
  confidence : ℚ
  reasoning : String
  recommended_action : String
  requires_human_approval : Bool
  flags : List String

/-- The pure core of `TrafficLightSystem.assess_action_risk`
(phase_manager.py lines 281-326), parameterised by the fetched health and
phase and by the dict returned from the AI-service risk call. -/
def assess_action_risk (health : AccountHealth) (phase : Phase)
    (llm_response : LLMResponseDict) : RiskAssessment :=
  let risk_level := parse_risk_level llm_response health phase
  { risk_level := risk_level
    confidence := llm_response.confidence.getD (mkRat 8 10)
    reasoning := llm_response.reasoning.getD ""
    recommended_action := llm_response.recommendation.getD ""
    requires_human_approval :=
      risk_level == RiskLevel.YELLOW || risk_level == RiskLevel.RED
    flags := llm_response.flags.getD [] }

/-- One approval row as stored by the database collaborator of
`HumanApprovalWorkflow`: its `status` string and the resolution written by
`update_approval_status`. -/
structure ApprovalRecord where
  status : String
  resolved_by : Option String := none
  resolution_notes : Option String := none
deriving DecidableEq

/-- State touched by `HumanApprovalWorkflow.approve_action` / `reject_action`:
the database's approval rows (an association list keyed by approval id) and
the in-memory `pending_approvals` queue of ids. -/
structure ApprovalState where
  db : List (String × ApprovalRecord)
  pending_approvals : List String
deriving DecidableEq

/-- Key lookup in the approval store (first binding wins, as in a dict). -/
def db_lookup (db : List (String × ApprovalRecord)) (key : String) :
    Option ApprovalRecord :=
  match db with
  | [] => none
  | (k, v) :: tl => if k = key then some v else db_lookup tl key

/-- `self.db.get_approval_request(approval_id)`: look the id up in the store
(`None` when the row does not exist). -/
def get_approval_request (s : ApprovalState) (approval_id : String) :
    Option ApprovalRecord :=
  db_lookup s.db approval_id

/-- Rewrite the rows bound to `key` to carry `rec` instead. -/
def db_update (db : List (String × ApprovalRecord)) (key : String)
    (rec : ApprovalRecord) : List (String × ApprovalRecord) :=
  match db with
  | [] => []
  | (k, v) :: tl =>
    if k = key then (k, rec) :: db_update tl key rec
    else (k, v) :: db_update tl key rec

/-- `self.db.update_approval_status(approval_id, status, approver_id, notes)`:
rewrite the matching row's status and resolution fields. -/
def update_approval_status (s : ApprovalState) (approval_id status approver notes : String) :
    ApprovalState :=
  let updated : ApprovalRecord :=
    { status := status, resolved_by := some approver, resolution_notes := some notes }
  { s with db := db_update s.db approval_id updated }

/-- `HumanApprovalWorkflow.approve_action` (phase_manager.py lines 434-451):
returns False untouched unless the row exists with status `"pending"`;
otherwise marks it approved, drops it from the in-memory queue, returns True. -/
def approve_action (s : ApprovalState) (approval_id approver_id notes : String) :
    Bool × ApprovalState :=
  match get_approval_request s approval_id with
  | none => (false, s)
  | some approval =>
    if approval.status ≠ "pending" then (false, s)
    else
      let s1 := update_approval_status s approval_id "approved" approver_id notes
      let s2 := { s1 with
        pending_approvals := s1.pending_approvals.filter (fun a => a ≠ approval_id) }
      (true, s2)

/-- `HumanApprovalWorkflow.reject_action` (phase_manager.py lines 453-470). -/
def reject_action (s : ApprovalState) (approval_id approver_id reason : String) :
    Bool × ApprovalState :=
  match get_approval_request s approval_id with
  | none => (false, s)
  | some approval =>
    if approval.status ≠ "pending" then (false, s)
    else
      let s1 := update_approval_status s approval_id "rejected" approver_id reason
      let s2 := { s1 with
        pending_approvals := s1.pending_approvals.filter (fun a => a ≠ approval_id) }
      (true, s2)

/-- `PlatformHealthMonitor._get_backoff_time` (behavioral_service.py lines
293-306): count the platform's rate-limit timestamps inside the last hour of
`now` (seconds), then `min(60 * 2 ** recent, 3600)`. -/
def get_backoff_time (now : ℤ) (rate_limit_history : List ℤ) : ℤ :=
  let recent_limits := (rate_limit_history.filter (fun ts => now - 3600 < ts)).length
  min (60 * 2 ^ recent_limits) 3600

/-- A concrete `AccountHealth` value with the given risk score, error count
and engagement rate, used to instantiate universally quantified theorems. -/
def mkHealth (risk : ℚ) (errors : ℕ) (engagement : ℚ) : AccountHealth :=
  { account_id := "acct-1"
    platform := "tiktok"
    followers_count := 100
    following_count := 50
    posts_count := 10
    engagement_rate := engagement
    followRatioVal := mkRat 1 2
    last_action_timestamp := none
    consecutive_errors := errors
    risk_score := risk
    phase := Phase.PHASE_1
    status := "active" }

/-- C10: `initialize_account_phase` assigns the initial phase purely from
account age: no creation timestamp or age below 30 days gives PHASE_1, ages
30-59 give PHASE_2, ages 60 and above give PHASE_3; no health metric is
consulted (the function takes none). -/
theorem C10_initialize_phase_by_age :
    initialize_account_phase none = Phase.PHASE_1 ∧
    ∀ days : ℤ,
      (days < 30 → initialize_account_phase (some days) = Phase.PHASE_1) ∧
      (30 ≤ days → days < 60 → initialize_account_phase (some days) = Phase.PHASE_2) ∧
      (60 ≤ days → initialize_account_phase (some days) = Phase.PHASE_3) := by
  refine ⟨rfl, fun days => ⟨?_, ?_, ?_⟩⟩ <;>
    intros <;> simp only [initialize_account_phase] <;> split_ifs <;>
    first
    | rfl
    | omega

/-- Witness instantiating C10 at concrete ages 29, 45 and 60. -/
theorem C10_witness :
    initialize_account_phase (some 29) = Phase.PHASE_1 ∧
    initialize_account_phase (some 45) = Phase.PHASE_2 ∧
    initialize_account_phase (some 60) = Phase.PHASE_3 :=
  ⟨(C10_initialize_phase_by_age.2 29).1 (by decide),
   (C10_initialize_phase_by_age.2 45).2.1 (by decide) (by decide),
   (C10_initialize_phase_by_age.2 60).2.2 (by decide)⟩

/-- C8: the backoff time equals `min (60 * 2 ^ n) 3600` seconds where `n` is
the number of rate-limit events within the last hour; `n = 0` gives 60,
`n = 3` gives 480, and every `n ≥ 6` gives the cap 3600. -/
theorem C8_backoff_exponential :
    ∀ (now : ℤ) (history : List ℤ),
      get_backoff_time now history =
        min (60 * 2 ^ (history.filter (fun ts => now - 3600 < ts)).length) 3600 ∧
      ((history.filter (fun ts => now - 3600 < ts)).length = 0 →
        get_backoff_time now history = 60) ∧
      ((history.filter (fun ts => now - 3600 < ts)).length = 3 →
        get_backoff_time now history = 480) ∧
      (6 ≤ (history.filter (fun ts => now - 3600 < ts)).length →
        get_backoff_time now history = 3600) := by
  intro now history
  refine ⟨rfl, fun h => ?_, fun h => ?_, fun h => ?_⟩
  · simp [get_backoff_time, h]
  · simp only [get_backoff_time, h]
    decide
  · have h64 : (64 : ℤ) ≤ 2 ^ (history.filter (fun ts => now - 3600 < ts)).length := by
      calc (64 : ℤ) = 2 ^ 6 := by norm_num
        _ ≤ 2 ^ (history.filter (fun ts => now - 3600 < ts)).length :=
          pow_le_pow_right₀ (by norm_num) h
    have h36 : (3600 : ℤ) ≤
        60 * 2 ^ (history.filter (fun ts => now - 3600 < ts)).length := by linarith
    simp only [get_backoff_time]
    exact min_eq_right h36

/-- Witness instantiating C8 with three in-window events (backoff 480s). -/
theorem C8_witness : get_backoff_time 7200 [7000, 100, 6900, 6500] = 480 :=
  (C8_backoff_exponential 7200 [7000, 100, 6900, 6500]).2.2.1 (by decide)

/-- C1 divergence evidence: on the intended fail-safe path (provider failure
or unparseable output feeding the default risk dict into the assessor), the
assessment has confidence 0 and a non-GREEN level, but its flags list is
empty: the default dict carries no flags key, so no flag notes the degraded
analysis (and the deployed wiring never reaches this path at all, since
`TrafficLightSystem` calls `self.ai_service.analyze_risk`, a method
`AIServiceProvider` does not define). -/
theorem C1_failsafe_default_no_flags :
    (assess_action_risk (mkHealth 0 0 (mkRat 5 100)) Phase.PHASE_1
      (assess_risk LLMCallResult.failure)).confidence = 0 ∧
    (assess_action_risk (mkHealth 0 0 (mkRat 5 100)) Phase.PHASE_1
      (assess_risk LLMCallResult.failure)).risk_level = RiskLevel.RED ∧
    (assess_action_risk (mkHealth 0 0 (mkRat 5 100)) Phase.PHASE_2
      (assess_risk LLMCallResult.unparseable)).risk_level = RiskLevel.YELLOW ∧
    (assess_action_risk (mkHealth 0 0 (mkRat 5 100)) Phase.PHASE_1
      (assess_risk LLMCallResult.failure)).flags = [] := by
  decide

/-- C2 counterexample: a PHASE_1 assessment whose LLM verdict is the
non-contract string "blue" is reconciled to GREEN, so GREEN does not occur
only on verdict "green". -/
theorem C2_counterexample :
    parse_risk_level { risk_level := some "blue" } (mkHealth 0 0 (mkRat 5 100))
        Phase.PHASE_1 = RiskLevel.GREEN ∧
    ("blue" : String) ≠ "green" := by
  decide

/-- C2 amended: in PHASE_1 the reconciled level is RED whenever the
lowercased verdict (default "yellow" when the key is missing) is "yellow" or
"red", is GREEN exactly when it is neither — so among the contract verdicts
only "green" yields GREEN — and is never YELLOW. -/
theorem C2_phase1_escalation :
    ∀ (llm_response : LLMResponseDict) (health : AccountHealth),
      ((py_lower (llm_response.risk_level.getD "yellow") = "yellow" ∨
        py_lower (llm_response.risk_level.getD "yellow") = "red") →
          parse_risk_level llm_response health Phase.PHASE_1 = RiskLevel.RED) ∧
      (parse_risk_level llm_response health Phase.PHASE_1 = RiskLevel.GREEN ↔
        ¬(py_lower (llm_response.risk_level.getD "yellow") = "yellow" ∨
          py_lower (llm_response.risk_level.getD "yellow") = "red")) ∧
      parse_risk_level llm_response health Phase.PHASE_1 ≠ RiskLevel.YELLOW := by
  intro r h
  refine ⟨fun hv => ?_, ?_, ?_⟩
  · simp [parse_risk_level, hv]
  · simp only [parse_risk_level]
    split_ifs with hc
    · simp [hc]
    · simp [hc]
  · simp only [parse_risk_level]
    split_ifs <;> simp

/-- Witness instantiating the amended C2 on verdicts "green" and "yellow". -/
theorem C2_witness :
    parse_risk_level { risk_level := some "green" } (mkHealth 0 0 (mkRat 5 100))
        Phase.PHASE_1 = RiskLevel.GREEN ∧
    parse_risk_level { risk_level := some "yellow" } (mkHealth 0 0 (mkRat 5 100))
        Phase.PHASE_1 = RiskLevel.RED :=
  ⟨(C2_phase1_escalation { risk_level := some "green" }
      (mkHealth 0 0 (mkRat 5 100))).2.1.mpr (by decide),
   (C2_phase1_escalation { risk_level := some "yellow" }
      (mkHealth 0 0 (mkRat 5 100))).1 (by decide)⟩

/-- C6: for every fetched health, phase and LLM response dict, the returned
assessment requires human approval exactly when its final risk level is not
GREEN. -/
theorem C6_requires_approval_iff_not_green :
    ∀ (health : AccountHealth) (phase : Phase) (llm_response : LLMResponseDict),
      (assess_action_risk health phase llm_response).requires_human_approval = true ↔
        (assess_action_risk health phase llm_response).risk_level ≠ RiskLevel.GREEN := by
  intro h p r
  simp only [assess_action_risk]
  generalize parse_risk_level r h p = l
  cases l <;> decide

/-- Witness instantiating C6: a red verdict in PHASE_1 requires approval. -/
theorem C6_witness :
    (assess_action_risk (mkHealth 0 0 (mkRat 5 100)) Phase.PHASE_1
      { risk_level := some "red" }).requires_human_approval = true :=
  (C6_requires_approval_iff_not_green (mkHealth 0 0 (mkRat 5 100)) Phase.PHASE_1
    { risk_level := some "red" }).mpr (by decide)

/-- C3: `should_progress_phase` is a pure function of the current phase,
account age and the three health metrics: from PHASE_1 it returns
(true, PHASE_2) exactly when age ≥ 30 and risk < 0.3 and errors < 3 and
engagement > 0.01; from PHASE_2 it returns (true, PHASE_3) exactly when
age ≥ 60 and risk < 0.4 and errors < 5 and engagement > 0.02; in every other
case, PHASE_3 and missing-age cases included, it returns (false, current
phase); and a PHASE_1 account aged 29 days never transitions. -/
theorem C3_should_progress_exact :
    ∀ (days : ℤ) (health : AccountHealth),
      (should_progress_phase Phase.PHASE_1 (some days) health = (true, Phase.PHASE_2) ↔
        (30 ≤ days ∧ health.risk_score < mkRat 3 10 ∧
         health.consecutive_errors < 3 ∧ health.engagement_rate > mkRat 1 100)) ∧
      (should_progress_phase Phase.PHASE_2 (some days) health = (true, Phase.PHASE_3) ↔
        (60 ≤ days ∧ health.risk_score < mkRat 4 10 ∧
         health.consecutive_errors < 5 ∧ health.engagement_rate > mkRat 2 100)) ∧
      (∀ current_phase : Phase,
        ¬(current_phase = Phase.PHASE_1 ∧ 30 ≤ days ∧ health.risk_score < mkRat 3 10 ∧
            health.consecutive_errors < 3 ∧ health.engagement_rate > mkRat 1 100) →
        ¬(current_phase = Phase.PHASE_2 ∧ 60 ≤ days ∧ health.risk_score < mkRat 4 10 ∧
            health.consecutive_errors < 5 ∧ health.engagement_rate > mkRat 2 100) →
        should_progress_phase current_phase (some days) health = (false, current_phase)) ∧
      (days = 29 →
        should_progress_phase Phase.PHASE_1 (some days) health = (false, Phase.PHASE_1)) ∧
      should_progress_phase Phase.PHASE_3 (some days) health = (false, Phase.PHASE_3) ∧
      (∀ current_phase : Phase,
        should_progress_phase current_phase none health = (false, current_phase)) := by
  intro days health
  refine ⟨?_, ?_, ?_, ?_, ?_, fun p => rfl⟩
  · simp only [should_progress_phase]
    split_ifs <;> simp_all
  · simp only [should_progress_phase]
    split_ifs <;> simp_all
  · intro p h1 h2
    cases p <;> simp only [should_progress_phase] <;> split_ifs <;> simp_all
  · intro h
    subst h
    simp only [should_progress_phase]
    split_ifs <;> simp_all
  · simp only [should_progress_phase]
    split_ifs <;> simp_all

/-- Witness instantiating C3: age 29 stays in PHASE_1; an eligible PHASE_2
account aged 65 moves to PHASE_3. -/
theorem C3_witness :
    should_progress_phase Phase.PHASE_1 (some 29) (mkHealth 0 0 (mkRat 5 100)) =
      (false, Phase.PHASE_1) ∧
    should_progress_phase Phase.PHASE_2 (some 65)
        (mkHealth (mkRat 2 10) 0 (mkRat 5 100)) = (true, Phase.PHASE_3) :=
  ⟨(C3_should_progress_exact 29 (mkHealth 0 0 (mkRat 5 100))).2.2.2.1 rfl,
   (C3_should_progress_exact 65 (mkHealth (mkRat 2 10) 0 (mkRat 5 100))).2.1.mpr
     (by decide)⟩

/-- C4: the risk score equals `min` of the sum of the four factors (follow
ratio +0.4/+0.2, engagement +0.3/+0.1, errors +0.3/+0.1, recency +0.2, each
with the source's thresholds, missing metrics defaulting and the ratio
denominator flooring at 1) with 1.0, and always lies in [0, 1]. -/
theorem C4_risk_score_formula :
    ∀ (now : ℚ) (d : AccountData),
      calculate_risk_score now d =
        min ((if (d.following_count.getD 0 : ℚ) /
                  ((max (d.followers_count.getD 0) 1 : ℕ) : ℚ) > 5 then mkRat 4 10
              else if (d.following_count.getD 0 : ℚ) /
                  ((max (d.followers_count.getD 0) 1 : ℕ) : ℚ) > 2 then mkRat 2 10
              else 0) +
             (if d.engagement_rate.getD 0 < mkRat 1 100 then mkRat 3 10
              else if d.engagement_rate.getD 0 < mkRat 2 100 then mkRat 1 10 else 0) +
             (if d.consecutive_errors.getD 0 > 5 then mkRat 3 10
              else if d.consecutive_errors.getD 0 > 2 then mkRat 1 10 else 0) +
             (match d.last_action_at with
              | some t => if (now - t) / 3600 < mkRat 1 2 then mkRat 2 10 else 0
              | none => 0)) 1 ∧
      0 ≤ calculate_risk_score now d ∧ calculate_risk_score now d ≤ 1 := by
  intro now d
  obtain ⟨fc, fg, er, ce, la⟩ := d
  refine ⟨rfl, ?_, ?_⟩
  · simp only [calculate_risk_score]
    refine le_min (add_nonneg (add_nonneg (add_nonneg ?_ ?_) ?_) ?_) (by norm_num)
    · split_ifs <;> decide
    · split_ifs <;> decide
    · split_ifs <;> decide
    · rcases la with _ | t
      · exact le_rfl
      · show (0 : ℚ) ≤ if (now - t) / 3600 < mkRat 1 2 then mkRat 2 10 else 0
        split_ifs <;> decide
  · simp only [calculate_risk_score]
    exact min_le_right _ _

/-- The follow-ratio factor is monotone non-decreasing in the ratio. -/
lemma ratio_factor_mono {x y : ℚ} (h : x ≤ y) :
    (if x > 5 then mkRat 4 10 else if x > 2 then mkRat 2 10 else 0) ≤
      (if y > 5 then mkRat 4 10 else if y > 2 then mkRat 2 10 else 0) := by
  have h1 : (0 : ℚ) ≤ mkRat 2 10 := by decide
  have h2 : mkRat 2 10 ≤ mkRat 4 10 := by decide
  have h3 : (0 : ℚ) ≤ mkRat 4 10 := by decide
  split_ifs <;> first | exact le_rfl | linarith

/-- The engagement factor is monotone non-increasing in the engagement rate. -/
lemma engagement_factor_anti {x y : ℚ} (h : x ≤ y) :
    (if y < mkRat 1 100 then mkRat 3 10 else if y < mkRat 2 100 then mkRat 1 10 else 0) ≤
      (if x < mkRat 1 100 then mkRat 3 10 else if x < mkRat 2 100 then mkRat 1 10 else 0) := by
  have h1 : (0 : ℚ) ≤ mkRat 1 10 := by decide
  have h2 : mkRat 1 10 ≤ mkRat 3 10 := by decide
  have h3 : (0 : ℚ) ≤ mkRat 3 10 := by decide
  have h4 : mkRat 1 100 ≤ mkRat 2 100 := by decide
  split_ifs <;> first | exact le_rfl | linarith

/-- The error factor is monotone non-decreasing in the error count. -/
lemma error_factor_mono {x y : ℕ} (h : x ≤ y) :
    (if x > 5 then mkRat 3 10 else if x > 2 then mkRat 1 10 else 0) ≤
      (if y > 5 then mkRat 3 10 else if y > 2 then mkRat 1 10 else 0) := by
  have h1 : (0 : ℚ) ≤ mkRat 1 10 := by decide
  have h2 : mkRat 1 10 ≤ mkRat 3 10 := by decide
  have h3 : (0 : ℚ) ≤ mkRat 3 10 := by decide
  split_ifs <;> first | exact le_rfl | linarith

/-- The recency factor is monotone non-increasing in the elapsed time. -/
lemma action_factor_anti {u v : ℚ} (h : u ≤ v) :
    (if v / 3600 < mkRat 1 2 then mkRat 2 10 else 0) ≤
      (if u / 3600 < mkRat 1 2 then mkRat 2 10 else 0) := by
  have h1 : (0 : ℚ) ≤ mkRat 2 10 := by decide
  split_ifs <;> first | exact le_rfl | linarith

/-- C5: the risk score is monotone non-decreasing in each individual risk
factor: raising the follow ratio, lowering the engagement rate, raising the
error count, or making the last action more recent (all other metrics held
fixed) never decreases the score. -/
theorem C5_risk_score_monotone :
    (∀ (now : ℚ) (a b : AccountData),
      a.engagement_rate = b.engagement_rate →
      a.consecutive_errors = b.consecutive_errors →
      a.last_action_at = b.last_action_at →
      (a.following_count.getD 0 : ℚ) / ((max (a.followers_count.getD 0) 1 : ℕ) : ℚ) ≤
        (b.following_count.getD 0 : ℚ) / ((max (b.followers_count.getD 0) 1 : ℕ) : ℚ) →
      calculate_risk_score now a ≤ calculate_risk_score now b) ∧
    (∀ (now : ℚ) (a b : AccountData),
      a.followers_count = b.followers_count →
      a.following_count = b.following_count →
      a.consecutive_errors = b.consecutive_errors →
      a.last_action_at = b.last_action_at →
      b.engagement_rate.getD 0 ≤ a.engagement_rate.getD 0 →
      calculate_risk_score now a ≤ calculate_risk_score now b) ∧
    (∀ (now : ℚ) (a b : AccountData),
      a.followers_count = b.followers_count →
      a.following_count = b.following_count →
      a.engagement_rate = b.engagement_rate →
      a.last_action_at = b.last_action_at →
      a.consecutive_errors.getD 0 ≤ b.consecutive_errors.getD 0 →
      calculate_risk_score now a ≤ calculate_risk_score now b) ∧
    (∀ (now ta tb : ℚ) (a b : AccountData),
      a.followers_count = b.followers_count →
      a.following_count = b.following_count →
      a.engagement_rate = b.engagement_rate →
      a.consecutive_errors = b.consecutive_errors →
      a.last_action_at = some ta →
      b.last_action_at = some tb →
      now - tb ≤ now - ta →
      calculate_risk_score now a ≤ calculate_risk_score now b) := by
  refine ⟨?_, ?_, ?_, ?_⟩
  · intro now a b he hc hl hr
    simp only [calculate_risk_score, he, hc, hl]
    exact min_le_min
      (add_le_add (add_le_add (add_le_add (ratio_factor_mono hr) le_rfl) le_rfl) le_rfl)
      le_rfl
  · intro now a b hf hg hc hl he
    simp only [calculate_risk_score, hf, hg, hc, hl]
    exact min_le_min
      (add_le_add (add_le_add (add_le_add le_rfl (engagement_factor_anti he)) le_rfl)
        le_rfl)
      le_rfl
  · intro now a b hf hg he hl hc
    simp only [calculate_risk_score, hf, hg, he, hl]
    exact min_le_min
      (add_le_add (add_le_add (add_le_add le_rfl le_rfl) (error_factor_mono hc)) le_rfl)
      le_rfl
  · intro now ta tb a b hf hg he hc ha hb ht
    simp only [calculate_risk_score, hf, hg, he, hc, ha, hb]
    exact min_le_min
      (add_le_add (add_le_add (add_le_add le_rfl le_rfl) le_rfl) (action_factor_anti ht))
      le_rfl

/-- Witness instantiating C5 on the error factor: 0 errors versus 6. -/
theorem C5_witness :
    calculate_risk_score 0 { consecutive_errors := some 0 } ≤
      calculate_risk_score 0 { consecutive_errors := some 6 } :=
  C5_risk_score_monotone.2.2.1 0 { consecutive_errors := some 0 }
    { consecutive_errors := some 6 } rfl rfl rfl rfl (by decide)

/-- Updating one key of the approval store rewrites exactly that key's row. -/
lemma db_lookup_update (db : List (String × ApprovalRecord)) (approval_id : String)
    (rec : ApprovalRecord) :
    db_lookup (db_update db approval_id rec) approval_id =
      (db_lookup db approval_id).map (fun _ => rec) := by
  induction db with
  | nil => rfl
  | cons hd tl ih =>
    obtain ⟨k, v⟩ := hd
    by_cases h : k = approval_id
    · subst h
      simp [db_update, db_lookup, ih]
    · simp [db_update, db_lookup, h, ih]

/-- Characterisation of `approve_action` on a pending record: it succeeds and
returns the updated store with the id dropped from the in-memory queue. -/
lemma approve_action_pending (s : ApprovalState)
    (approval_id approver notes : String) (rec : ApprovalRecord)
    (h : get_approval_request s approval_id = some rec)
    (hs : rec.status = "pending") :
    approve_action s approval_id approver notes =
      (true,
        { db := db_update s.db approval_id
            { status := "approved", resolved_by := some approver,
              resolution_notes := some notes }
          pending_approvals :=
            s.pending_approvals.filter (fun a => a ≠ approval_id) }) := by
  simp [approve_action, h, hs, update_approval_status]

/-- C7: approve/reject on a missing or non-pending approval id return false
and leave the approval state unchanged; approve on a pending id returns
true, marks the record approved, and a second approve on the result returns
false and changes nothing; both operations are total functions. -/
theorem C7_approval_state_machine :
    ∀ (s : ApprovalState) (approval_id approver notes reason : String),
      (get_approval_request s approval_id = none →
        approve_action s approval_id approver notes = (false, s) ∧
        reject_action s approval_id approver reason = (false, s)) ∧
      (∀ rec, get_approval_request s approval_id = some rec → rec.status ≠ "pending" →
        approve_action s approval_id approver notes = (false, s) ∧
        reject_action s approval_id approver reason = (false, s)) ∧
      (∀ rec, get_approval_request s approval_id = some rec → rec.status = "pending" →
        (approve_action s approval_id approver notes).1 = true ∧
        get_approval_request (approve_action s approval_id approver notes).2 approval_id =
          some { status := "approved", resolved_by := some approver,
                 resolution_notes := some notes } ∧
        approve_action (approve_action s approval_id approver notes).2 approval_id
            approver notes =
          (false, (approve_action s approval_id approver notes).2)) := by
  intro s approval_id approver notes reason
  refine ⟨fun h => ?_, fun rec h hs => ?_, fun rec h hs => ?_⟩
  · constructor <;> simp [approve_action, reject_action, h]
  · constructor <;> simp [approve_action, reject_action, h, hs]
  · have happ := approve_action_pending s approval_id approver notes rec h hs
    have hupd : get_approval_request
        (approve_action s approval_id approver notes).2 approval_id =
        some { status := "approved", resolved_by := some approver,
               resolution_notes := some notes } := by
      rw [happ]
      show db_lookup (db_update s.db approval_id _) approval_id = _
      rw [db_lookup_update]
      have h' : db_lookup s.db approval_id = some rec := h
      rw [h']
      rfl
    refine ⟨by rw [happ], hupd, ?_⟩
    set X := (approve_action s approval_id approver notes).2 with hX
    simp only [approve_action, hupd]
    rw [if_pos]
    exact fun hcon => absurd hcon (by decide)

/-- A store holding one pending approval request, for instantiating C7. -/
def sampleApprovalState : ApprovalState :=
  { db := [("approval_acct1_1700000000", { status := "pending" })]
    pending_approvals := ["approval_acct1_1700000000"] }

/-- Witness instantiating C7: approving the pending id succeeds; approving a
missing id fails without touching the state. -/
theorem C7_witness :
    (approve_action sampleApprovalState "approval_acct1_1700000000" "reviewer" "ok").1 =
      true ∧
    approve_action sampleApprovalState "missing_id" "reviewer" "ok" =
      (false, sampleApprovalState) :=
  ⟨((C7_approval_state_machine sampleApprovalState "approval_acct1_1700000000" "reviewer"
      "ok" "dup").2.2 { status := "pending" } (by decide) rfl).1,
   ((C7_approval_state_machine sampleApprovalState "missing_id" "reviewer" "ok" "dup").1
      (by decide)).1⟩

/-- An account eligible for PHASE_1 → PHASE_2 progression, for evaluating
`progress_account_phase` on a concrete transition. -/
def sampleEligibleState : PMState :=
  { current_phase := Phase.PHASE_1
    days_active := some 45
    health := mkHealth (mkRat 1 10) 0 (mkRat 5 100)
    phase_log := [] }

/-- C9 divergence evidence: on an eligible PHASE_1 account the transition to
PHASE_2 succeeds, but the audit entry it records carries from_phase PHASE_2
(equal to to_phase), not the pre-transition phase PHASE_1: the code reads
the current phase for the log only after `update_account_phase` has already
overwritten it. -/
theorem C9_log_from_phase_equals_to_phase :
    sampleEligibleState.current_phase = Phase.PHASE_1 ∧
    (progress_account_phase 0 "acct-1" sampleEligibleState).1 = true ∧
    (progress_account_phase 0 "acct-1" sampleEligibleState).2.current_phase =
      Phase.PHASE_2 ∧
    ((progress_account_phase 0 "acct-1" sampleEligibleState).2.phase_log.map
      (fun e => (e.from_phase, e.to_phase))) = [(Phase.PHASE_2, Phase.PHASE_2)] := by
  decide

end SocialSeed
